import Mathlib

/-!
Verification development for the Nigerian tax calculator.

The computational core of the application (progressive bracket allocation,
personal income tax, corporate income tax, capital gains tax, VAT) is
embedded shallowly: every calculator function is translated from the
TypeScript source into a Lean function over exact rational arithmetic
(the source uses JavaScript number arithmetic on currency amounts; the
rational embedding gives the intended exact values of the same formulas).
Optional (possibly `undefined`) inputs become `Option ℚ`, with the
source's `x || 0` defaulting translated as `Option.getD 0`.
-/

/-! ## Tax configuration constants (taxConfig.ts) -/

/-- A progressive tax bracket, as in `taxConfig.ts`: `max = none` means
an unbounded (top) bracket. -/
structure TaxBracket where
  min : ℚ
  max : Option ℚ
  rate : ℚ
  label : String
deriving Repr, DecidableEq

/-- The 2026 progressive PIT brackets from `taxConfig.ts`. -/
def PIT_BRACKETS : List TaxBracket :=
  [ { min := 0, max := some 800000, rate := 0, label := "Tax-Exempt" },
    { min := 800001, max := some 3000000, rate := 15, label := "15% Bracket" },
    { min := 3000001, max := some 12000000, rate := 18, label := "18% Bracket" },
    { min := 12000001, max := some 25000000, rate := 21, label := "21% Bracket" },
    { min := 25000001, max := some 50000000, rate := 23, label := "23% Bracket" },
    { min := 50000001, max := none, rate := 25, label := "25% Bracket (Maximum)" } ]

def PIT_EXEMPT_THRESHOLD : ℚ := 800000

def JOB_LOSS_COMPENSATION_EXEMPT_LIMIT : ℚ := 50000000

def RENT_RELIEF_MAX : ℚ := 500000

def SMALL_COMPANY_TURNOVER_LIMIT : ℚ := 100000000

def CIT_RATE : ℚ := 30

def SMALL_COMPANY_CIT_RATE : ℚ := 0

def DEVELOPMENT_LEVY_RATE : ℚ := 4

def MINIMUM_EFFECTIVE_TAX_RATE : ℚ := 15

def COMPANY_CGT_RATE : ℚ := 30

def SMALL_COMPANY_CGT_RATE : ℚ := 0

def VAT_RATE : ℚ := 7.5

/-! ## Personal income tax (pitCalculator.ts) -/

structure IncomeSource where
  type : String
  amount : ℚ
deriving Repr, DecidableEq

structure Deduction where
  type : String
  amount : ℚ
deriving Repr, DecidableEq

structure BracketBreakdown where
  bracket : TaxBracket
  taxableInBracket : ℚ
  taxForBracket : ℚ
deriving Repr, DecidableEq

structure PITResult where
  grossIncome : ℚ
  totalDeductions : ℚ
  taxableIncome : ℚ
  totalTax : ℚ
  netTakeHome : ℚ
  effectiveRate : ℚ
  isExempt : Bool
  exemptReason : Option String
  bracketBreakdown : List BracketBreakdown
  monthlyTax : ℚ
  monthlyNetPay : ℚ
deriving Repr, DecidableEq

/-- Sum of all income source amounts (`calculateGrossIncome`). -/
def calculateGrossIncome (incomeSources : List IncomeSource) : ℚ :=
  incomeSources.foldl (fun total source => total + source.amount) 0

/-- One entry of the `applied` list that `calculateDeductions` returns. -/
structure AppliedDeduction where
  type : String
  amount : ℚ
  capped : Bool
deriving Repr, DecidableEq

/-- Per-deduction cap logic: the body of the loop in `calculateDeductions`.
Rent relief is capped at `RENT_RELIEF_MAX`, job-loss compensation at
`JOB_LOSS_COMPENSATION_EXEMPT_LIMIT`, pension at 8% of gross income. -/
def applyDeductionLimits (grossIncome : ℚ) (deduction : Deduction) : AppliedDeduction :=
  let step1 : ℚ × Bool :=
    if deduction.type = "rent_relief" ∧ deduction.amount > RENT_RELIEF_MAX then
      (RENT_RELIEF_MAX, true)
    else (deduction.amount, false)
  let step2 : ℚ × Bool :=
    if deduction.type = "job_loss" ∧ step1.1 > JOB_LOSS_COMPENSATION_EXEMPT_LIMIT then
      (JOB_LOSS_COMPENSATION_EXEMPT_LIMIT, true)
    else step1
  let maxPension := grossIncome * 0.08
  let step3 : ℚ × Bool :=
    if deduction.type = "pension" ∧ step2.1 > maxPension then
      (maxPension, true)
    else step2
  { type := deduction.type, amount := step3.1, capped := step3.2 }

/-- Total deductions with applicable limits (`calculateDeductions`): the
per-entry caps above, then the total is capped at gross income. Returns
the capped total together with the `applied` list. -/
def calculateDeductions (deductions : List Deduction) (grossIncome : ℚ) :
    ℚ × List AppliedDeduction :=
  let applied := deductions.map (applyDeductionLimits grossIncome)
  let total := applied.foldl (fun t a => t + a.amount) 0
  (if total > grossIncome then grossIncome else total, applied)

/-- Loop state of `calculateProgressiveTax`: accumulated tax, income not
yet allocated to a bracket, and the breakdown built so far. -/
structure ProgState where
  totalTax : ℚ
  remaining : ℚ
  breakdown : List BracketBreakdown
deriving Repr, DecidableEq

/-- One iteration of the bracket walk in `calculateProgressiveTax`.
A zero-rate bracket is special-cased against `PIT_EXEMPT_THRESHOLD`
using the original taxable income; other brackets consume
`min remaining (max - min + 1)` (all of `remaining` for the unbounded
bracket) at their rate. -/
def progStep (taxableIncome : ℚ) (st : ProgState) (bracket : TaxBracket) : ProgState :=
  if st.remaining ≤ 0 then
    { st with breakdown := st.breakdown ++ [⟨bracket, 0, 0⟩] }
  else if bracket.rate = 0 then
    if taxableIncome ≤ PIT_EXEMPT_THRESHOLD then
      { st with breakdown := st.breakdown ++ [⟨bracket, taxableIncome, 0⟩],
                remaining := 0 }
    else
      { st with breakdown := st.breakdown ++ [⟨bracket, PIT_EXEMPT_THRESHOLD, 0⟩],
                remaining := taxableIncome - PIT_EXEMPT_THRESHOLD }
  else
    let taxableInBracket :=
      match bracket.max with
      | some m => min st.remaining (m - bracket.min + 1)
      | none => st.remaining
    let taxForBracket := taxableInBracket * bracket.rate / 100
    { totalTax := st.totalTax + taxForBracket,
      remaining := st.remaining - taxableInBracket,
      breakdown := st.breakdown ++ [⟨bracket, taxableInBracket, taxForBracket⟩] }

structure ProgressiveTaxResult where
  totalTax : ℚ
  breakdown : List BracketBreakdown
deriving Repr, DecidableEq

/-- Progressive bracket allocation (`calculateProgressiveTax`): fold the
bracket walk over `PIT_BRACKETS`. -/
def calculateProgressiveTax (taxableIncome : ℚ) : ProgressiveTaxResult :=
  let st := PIT_BRACKETS.foldl (progStep taxableIncome) ⟨0, taxableIncome, []⟩
  ⟨st.totalTax, st.breakdown⟩

/-- Main PIT calculation (`calculatePIT`): gross income, capped
deductions, exemption fast-path below `PIT_EXEMPT_THRESHOLD`, otherwise
the progressive bracket walk. The `isResident` flag is accepted but both
branches of its conditional produce the same tax. -/
def calculatePIT (incomeSources : List IncomeSource) (deductions : List Deduction)
    (isResident : Bool := true) : PITResult :=
  let grossIncome := calculateGrossIncome incomeSources
  let totalDeductions := (calculateDeductions deductions grossIncome).1
  let taxableIncome := max 0 (grossIncome - totalDeductions)
  if taxableIncome ≤ PIT_EXEMPT_THRESHOLD then
    { grossIncome := grossIncome
      totalDeductions := totalDeductions
      taxableIncome := taxableIncome
      totalTax := 0
      netTakeHome := grossIncome - totalDeductions
      effectiveRate := 0
      isExempt := true
      exemptReason := some ("Annual income of " ++ toString taxableIncome ++
        " is below " ++ toString PIT_EXEMPT_THRESHOLD ++ " threshold")
      bracketBreakdown := [⟨PIT_BRACKETS.getD 0 ⟨0, none, 0, ""⟩, taxableIncome, 0⟩]
      monthlyTax := 0
      monthlyNetPay := (grossIncome - totalDeductions) / 12 }
  else
    let r := calculateProgressiveTax taxableIncome
    let finalTax := if isResident then r.totalTax else r.totalTax
    let netTakeHome := grossIncome - totalDeductions - finalTax
    let effectiveRate := if grossIncome > 0 then finalTax / grossIncome * 100 else 0
    { grossIncome := grossIncome
      totalDeductions := totalDeductions
      taxableIncome := taxableIncome
      totalTax := finalTax
      netTakeHome := netTakeHome
      effectiveRate := effectiveRate
      isExempt := false
      exemptReason := none
      bracketBreakdown := r.breakdown
      monthlyTax := finalTax / 12
      monthlyNetPay := netTakeHome / 12 }

/-- Quick tax estimate for a single annual income (`quickPITEstimate`). -/
def quickPITEstimate (annualIncome : ℚ) : PITResult :=
  calculatePIT [{ type := "salary", amount := annualIncome }] []

/-! ## Capital gains tax (cgtCalculator.ts) -/

inductive TaxpayerType where
  | individual
  | company
deriving Repr, DecidableEq

/-- The `number | string` type of the `cgtRate` field. -/
inductive CGTRate where
  | num : ℚ → CGTRate
  | str : String → CGTRate
deriving Repr, DecidableEq

structure CGTInput where
  taxpayerType : TaxpayerType
  saleProceeds : ℚ
  acquisitionCost : ℚ
  improvementCosts : Option ℚ := none
  transferCosts : Option ℚ := none
  isOffshoreTransfer : Option Bool := none
  companyTurnover : Option ℚ := none
deriving Repr, DecidableEq

structure CGTBreakdownItem where
  label : String
  amount : ℚ
  note : Option String := none
deriving Repr, DecidableEq

structure CGTResult where
  taxpayerType : TaxpayerType
  saleProceeds : ℚ
  totalCosts : ℚ
  capitalGain : ℚ
  cgtRate : CGTRate
  cgtAmount : ℚ
  netProceeds : ℚ
  effectiveRate : ℚ
  isExempt : Bool
  exemptReason : Option String
  breakdown : List CGTBreakdownItem
deriving Repr, DecidableEq

/-- Total deductible costs (`calculateTotalCosts`). -/
def calculateTotalCosts (input : CGTInput) : ℚ :=
  input.acquisitionCost + input.improvementCosts.getD 0 + input.transferCosts.getD 0

/-- CGT for companies (`calculateCompanyCGT`): small companies (turnover
given and at most `SMALL_COMPANY_TURNOVER_LIMIT`) are exempt, others pay
the flat `COMPANY_CGT_RATE` on the capital gain. -/
def calculateCompanyCGT (input : CGTInput) : CGTResult :=
  let totalCosts := calculateTotalCosts input
  let capitalGain := max 0 (input.saleProceeds - totalCosts)
  let isSmallCompany : Bool :=
    match input.companyTurnover with
    | some t => decide (t ≤ SMALL_COMPANY_TURNOVER_LIMIT)
    | none => false
  if isSmallCompany then
    { taxpayerType := .company
      saleProceeds := input.saleProceeds
      totalCosts := totalCosts
      capitalGain := capitalGain
      cgtRate := .num SMALL_COMPANY_CGT_RATE
      cgtAmount := 0
      netProceeds := input.saleProceeds
      effectiveRate := 0
      isExempt := true
      exemptReason := some ("Small company (turnover at most " ++
        toString SMALL_COMPANY_TURNOVER_LIMIT ++ ") - CGT exempt")
      breakdown :=
        [ { label := "Sale Proceeds", amount := input.saleProceeds },
          { label := "Acquisition Cost", amount := input.acquisitionCost },
          { label := "Improvement Costs", amount := input.improvementCosts.getD 0 },
          { label := "Transfer Costs", amount := input.transferCosts.getD 0 },
          { label := "Capital Gain", amount := capitalGain },
          { label := "CGT (Exempt)", amount := 0, note := some "Small company exemption" } ] }
  else
    let cgtAmount := capitalGain * COMPANY_CGT_RATE / 100
    { taxpayerType := .company
      saleProceeds := input.saleProceeds
      totalCosts := totalCosts
      capitalGain := capitalGain
      cgtRate := .num COMPANY_CGT_RATE
      cgtAmount := cgtAmount
      netProceeds := input.saleProceeds - cgtAmount
      effectiveRate := if input.saleProceeds > 0 then cgtAmount / input.saleProceeds * 100 else 0
      isExempt := false
      exemptReason := none
      breakdown :=
        [ { label := "Sale Proceeds", amount := input.saleProceeds },
          { label := "Acquisition Cost", amount := input.acquisitionCost } ] ++
        (if input.improvementCosts.getD 0 > 0 then
          [{ label := "Improvement Costs", amount := input.improvementCosts.getD 0 }] else []) ++
        (if input.transferCosts.getD 0 > 0 then
          [{ label := "Transfer Costs", amount := input.transferCosts.getD 0 }] else []) ++
        [ { label := "Capital Gain", amount := capitalGain },
          { label := "CGT (30%)", amount := cgtAmount,
            note := if input.isOffshoreTransfer.getD false then
              some "Includes indirect offshore share transfer" else none } ] }

/-- CGT for individuals (`calculateIndividualCGT`): gains at or below the
800,000 exempt threshold pay nothing; larger gains are run through the
progressive PIT brackets. -/
def calculateIndividualCGT (input : CGTInput) : CGTResult :=
  let totalCosts := calculateTotalCosts input
  let capitalGain := max 0 (input.saleProceeds - totalCosts)
  let exemptThreshold : ℚ := 800000
  if capitalGain ≤ exemptThreshold then
    { taxpayerType := .individual
      saleProceeds := input.saleProceeds
      totalCosts := totalCosts
      capitalGain := capitalGain
      cgtRate := .str "0%"
      cgtAmount := 0
      netProceeds := input.saleProceeds
      effectiveRate := 0
      isExempt := true
      exemptReason := some ("Capital gain of " ++ toString capitalGain ++
        " is below " ++ toString exemptThreshold ++ " threshold")
      breakdown :=
        [ { label := "Sale Proceeds", amount := input.saleProceeds },
          { label := "Acquisition Cost", amount := input.acquisitionCost },
          { label := "Improvement Costs", amount := input.improvementCosts.getD 0 },
          { label := "Transfer Costs", amount := input.transferCosts.getD 0 },
          { label := "Capital Gain", amount := capitalGain },
          { label := "CGT (Exempt)", amount := 0, note := some "Below exempt threshold" } ] }
  else
    let r := calculateProgressiveTax capitalGain
    { taxpayerType := .individual
      saleProceeds := input.saleProceeds
      totalCosts := totalCosts
      capitalGain := capitalGain
      cgtRate := .str "Progressive (max 25%)"
      cgtAmount := r.totalTax
      netProceeds := input.saleProceeds - r.totalTax
      effectiveRate := if capitalGain > 0 then r.totalTax / capitalGain * 100 else 0
      isExempt := false
      exemptReason := none
      breakdown :=
        [ { label := "Sale Proceeds", amount := input.saleProceeds },
          { label := "Acquisition Cost", amount := input.acquisitionCost } ] ++
        (if input.improvementCosts.getD 0 > 0 then
          [{ label := "Improvement Costs", amount := input.improvementCosts.getD 0 }] else []) ++
        (if input.transferCosts.getD 0 > 0 then
          [{ label := "Transfer Costs", amount := input.transferCosts.getD 0 }] else []) ++
        [{ label := "Capital Gain", amount := capitalGain }] ++
        ((r.breakdown.filter (fun b => b.taxableInBracket > 0)).map (fun b =>
          { label := "Tax @ " ++ toString b.bracket.rate ++ "%",
            amount := b.taxForBracket,
            note := some ("On " ++ toString b.taxableInBracket) })) ++
        [{ label := "Total CGT", amount := r.totalTax }] }

/-- Main CGT entry point (`calculateCGT`). -/
def calculateCGT (input : CGTInput) : CGTResult :=
  if input.taxpayerType = .company then calculateCompanyCGT input
  else calculateIndividualCGT input

/-! ## Corporate income tax (citCalculator.ts) -/

inductive CompanySize where
  | small
  | other
deriving Repr, DecidableEq

inductive CompanyType where
  | domestic
  | multinational
deriving Repr, DecidableEq

structure CITInput where
  turnover : ℚ
  assessableProfits : ℚ
  companyType : CompanyType
  isMultinationalSubject : Bool
  foreignProfits : Option ℚ := none
  distributedForeignProfits : Option ℚ := none
deriving Repr, DecidableEq

structure CITBreakdownItem where
  label : String
  amount : ℚ
  rate : Option ℚ := none
  note : Option String := none
deriving Repr, DecidableEq

structure CITResult where
  companySize : CompanySize
  turnover : ℚ
  assessableProfits : ℚ
  citRate : ℚ
  citAmount : ℚ
  developmentLevy : ℚ
  totalTaxBeforeTopUp : ℚ
  effectiveTaxRate : ℚ
  minimumTaxTopUp : ℚ
  cfcTax : ℚ
  totalTaxPayable : ℚ
  breakdown : List CITBreakdownItem
deriving Repr, DecidableEq

/-- Company size classification (`determineCompanySize`). -/
def determineCompanySize (turnover : ℚ) : CompanySize :=
  if turnover ≤ SMALL_COMPANY_TURNOVER_LIMIT then .small else .other

/-- CIT for small companies (`calculateSmallCompanyCIT`): every tax
component is zero. -/
def calculateSmallCompanyCIT (input : CITInput) : CITResult :=
  { companySize := .small
    turnover := input.turnover
    assessableProfits := input.assessableProfits
    citRate := SMALL_COMPANY_CIT_RATE
    citAmount := 0
    developmentLevy := 0
    totalTaxBeforeTopUp := 0
    effectiveTaxRate := 0
    minimumTaxTopUp := 0
    cfcTax := 0
    totalTaxPayable := 0
    breakdown :=
      [ { label := "Company Classification", amount := 0,
          note := some ("Small Company (Turnover at most " ++
            toString SMALL_COMPANY_TURNOVER_LIMIT ++ ")") },
        { label := "Corporate Income Tax", amount := 0, rate := some SMALL_COMPANY_CIT_RATE,
          note := some "0% CIT rate for small companies" },
        { label := "Development Levy", amount := 0, rate := some 0,
          note := some "Exempt for small companies" } ] }

/-- Minimum effective tax rate top-up (`calculateMinimumTaxTopUp`):
applies only to METR-subject companies with positive profits whose
current effective rate is below `MINIMUM_EFFECTIVE_TAX_RATE`. -/
def calculateMinimumTaxTopUp (assessableProfits currentTax : ℚ)
    (isSubjectToMETR : Bool) : ℚ :=
  if ¬(isSubjectToMETR = true) ∨ assessableProfits ≤ 0 then 0
  else
    let currentEffectiveRate := currentTax / assessableProfits * 100
    if currentEffectiveRate ≥ MINIMUM_EFFECTIVE_TAX_RATE then 0
    else assessableProfits * MINIMUM_EFFECTIVE_TAX_RATE / 100 - currentTax

/-- Controlled foreign company tax (`calculateCFCTax`): CIT rate on
undistributed foreign profits. -/
def calculateCFCTax (foreignProfits distributedProfits : ℚ) : ℚ :=
  let undistributedProfits := max 0 (foreignProfits - distributedProfits)
  undistributedProfits * CIT_RATE / 100

/-- CIT for non-small companies (`calculateOtherCompanyCIT`). -/
def calculateOtherCompanyCIT (input : CITInput) : CITResult :=
  let citAmount := input.assessableProfits * CIT_RATE / 100
  let developmentLevy := input.assessableProfits * DEVELOPMENT_LEVY_RATE / 100
  let totalTaxBeforeTopUp := citAmount + developmentLevy
  let minimumTaxTopUp := calculateMinimumTaxTopUp input.assessableProfits
    totalTaxBeforeTopUp input.isMultinationalSubject
  let cfcTax := calculateCFCTax (input.foreignProfits.getD 0)
    (input.distributedForeignProfits.getD 0)
  let totalTaxPayable := totalTaxBeforeTopUp + minimumTaxTopUp + cfcTax
  let effectiveTaxRate :=
    if input.assessableProfits > 0 then totalTaxPayable / input.assessableProfits * 100 else 0
  { companySize := .other
    turnover := input.turnover
    assessableProfits := input.assessableProfits
    citRate := CIT_RATE
    citAmount := citAmount
    developmentLevy := developmentLevy
    totalTaxBeforeTopUp := totalTaxBeforeTopUp
    effectiveTaxRate := effectiveTaxRate
    minimumTaxTopUp := minimumTaxTopUp
    cfcTax := cfcTax
    totalTaxPayable := totalTaxPayable
    breakdown :=
      [ { label := "Corporate Income Tax", amount := citAmount, rate := some CIT_RATE,
          note := some "30% on assessable profits" },
        { label := "Development Levy", amount := developmentLevy,
          rate := some DEVELOPMENT_LEVY_RATE, note := some "4% of assessable profits" } ] ++
      (if input.isMultinationalSubject then
        [{ label := "Minimum Tax Top-Up (METR 15%)", amount := minimumTaxTopUp,
           rate := some MINIMUM_EFFECTIVE_TAX_RATE,
           note := if minimumTaxTopUp > 0 then
             some "Top-up applied to meet 15% minimum effective rate"
           else some "No top-up needed - effective rate already at least 15%" }] else []) ++
      (if input.foreignProfits.getD 0 > 0 then
        [{ label := "CFC Tax (Foreign Profits)", amount := cfcTax, rate := some CIT_RATE,
           note := some "Tax on undistributed foreign subsidiary profits" }] else []) }

/-- Main CIT entry point (`calculateCIT`). -/
def calculateCIT (input : CITInput) : CITResult :=
  match determineCompanySize input.turnover with
  | .small => calculateSmallCompanyCIT input
  | .other => calculateOtherCompanyCIT input

/-! ## Value added tax (vatCalculator.ts) -/

inductive VATCalculationType where
  | inclusive
  | exclusive
deriving Repr, DecidableEq

structure VATInput where
  amount : ℚ
  calculationType : VATCalculationType
deriving Repr, DecidableEq

structure VATResult where
  originalAmount : ℚ
  vatRate : ℚ
  vatAmount : ℚ
  netAmount : ℚ
  grossAmount : ℚ
  calculationType : VATCalculationType
deriving Repr, DecidableEq

/-- VAT from a price (`calculateVAT`): exclusive adds VAT on top,
inclusive extracts it from the gross amount. -/
def calculateVAT (input : VATInput) : VATResult :=
  let vatRate := VAT_RATE
  let vatMultiplier := vatRate / 100
  if input.calculationType = .exclusive then
    let netAmount := input.amount
    let vatAmount := netAmount * vatMultiplier
    let grossAmount := netAmount + vatAmount
    { originalAmount := input.amount, vatRate := vatRate, vatAmount := vatAmount,
      netAmount := netAmount, grossAmount := grossAmount, calculationType := .exclusive }
  else
    let grossAmount := input.amount
    let netAmount := grossAmount / (1 + vatMultiplier)
    let vatAmount := grossAmount - netAmount
    { originalAmount := input.amount, vatRate := vatRate, vatAmount := vatAmount,
      netAmount := netAmount, grossAmount := grossAmount, calculationType := .inclusive }

/-! ## Helper lemmas -/

/-- The bracket walk preserves the invariant that the accumulated total
equals the sum of the taxForBracket entries of the breakdown. -/
lemma progStep_taxSum (A : ℚ) (st : ProgState) (b : TaxBracket)
    (h : st.totalTax = (st.breakdown.map BracketBreakdown.taxForBracket).sum) :
    (progStep A st b).totalTax =
      ((progStep A st b).breakdown.map BracketBreakdown.taxForBracket).sum := by
  unfold progStep
  split_ifs <;> simp [h]

/-- The invariant of `progStep_taxSum`, folded over a whole bracket list. -/
lemma foldl_progStep_taxSum (A : ℚ) :
    ∀ (bs : List TaxBracket) (st : ProgState),
      st.totalTax = (st.breakdown.map BracketBreakdown.taxForBracket).sum →
      (bs.foldl (progStep A) st).totalTax =
        ((bs.foldl (progStep A) st).breakdown.map BracketBreakdown.taxForBracket).sum
  | [], _, h => h
  | b :: bs, st, h =>
    foldl_progStep_taxSum A bs (progStep A st b) (progStep_taxSum A st b h)

/-- Validity of a bracket: nonnegative rate and nonnegative capacity. -/
def ValidBracket (b : TaxBracket) : Prop :=
  0 ≤ b.rate ∧ ∀ m, b.max = some m → 0 ≤ m - b.min + 1

/-- All the configured PIT brackets are valid. -/
lemma PIT_BRACKETS_valid : ∀ b ∈ PIT_BRACKETS, ValidBracket b := by
  intro b hb
  fin_cases hb <;> refine ⟨by norm_num, fun m hm => ?_⟩ <;>
    first
      | exact Option.noConfusion hm
      | (injection hm with h; subst h; norm_num)

/-- Subtracting the `min` with a fixed cap is monotone. -/
lemma sub_min_mono (r1 r2 c : ℚ) (h : r1 ≤ r2) : r1 - min r1 c ≤ r2 - min r2 c := by
  rcases le_total r1 c with h1 | h1 <;> rcases le_total r2 c with h2 | h2 <;>
    simp [min_eq_left, min_eq_right, h1, h2] <;> linarith

/-- One step of the bracket walk preserves the monotonicity invariant:
smaller accumulated tax, nonnegative remaining income, and smaller
remaining income. -/
lemma progStep_mono (A1 A2 : ℚ) (hA : A1 ≤ A2) (b : TaxBracket) (hb : ValidBracket b)
    (st1 st2 : ProgState) (ht : st1.totalTax ≤ st2.totalTax)
    (h0 : 0 ≤ st1.remaining) (hr : st1.remaining ≤ st2.remaining) :
    (progStep A1 st1 b).totalTax ≤ (progStep A2 st2 b).totalTax ∧
      0 ≤ (progStep A1 st1 b).remaining ∧
      (progStep A1 st1 b).remaining ≤ (progStep A2 st2 b).remaining := by
  obtain ⟨hrate, hcap⟩ := hb
  have hT0 : (0:ℚ) ≤ PIT_EXEMPT_THRESHOLD := by norm_num [PIT_EXEMPT_THRESHOLD]
  unfold progStep
  by_cases h1 : st1.remaining ≤ 0
  · by_cases h2 : st2.remaining ≤ 0
    · simp only [if_pos h1, if_pos h2]
      exact ⟨ht, h0, hr⟩
    · have h2' : 0 < st2.remaining := lt_of_not_le h2
      by_cases hz : b.rate = 0
      · by_cases hA2 : A2 ≤ PIT_EXEMPT_THRESHOLD
        · simp only [if_pos h1, if_neg h2, if_pos hz, if_pos hA2]
          exact ⟨ht, h0, h1⟩
        · simp only [if_pos h1, if_neg h2, if_pos hz, if_neg hA2]
          refine ⟨ht, h0, ?_⟩
          have : PIT_EXEMPT_THRESHOLD < A2 := lt_of_not_le hA2
          try dsimp only
          linarith
      · cases hm : b.max with
        | some m =>
          have hc : 0 ≤ m - b.min + 1 := hcap m hm
          simp only [if_pos h1, if_neg h2, if_neg hz, hm]
          have hmin : 0 ≤ min st2.remaining (m - b.min + 1) :=
            le_min (le_of_lt h2') hc
          refine ⟨?_, h0, ?_⟩ <;> (try dsimp only)
          · nlinarith
          · have := min_le_left st2.remaining (m - b.min + 1)
            linarith
        | none =>
          simp only [if_pos h1, if_neg h2, if_neg hz, hm]
          refine ⟨?_, h0, ?_⟩ <;> (try dsimp only)
          · nlinarith
          · linarith
  · have h1' : 0 < st1.remaining := lt_of_not_le h1
    have h2 : ¬ st2.remaining ≤ 0 := by linarith
    by_cases hz : b.rate = 0
    · by_cases hA1 : A1 ≤ PIT_EXEMPT_THRESHOLD
      · by_cases hA2 : A2 ≤ PIT_EXEMPT_THRESHOLD
        · simp only [if_neg h1, if_neg h2, if_pos hz, if_pos hA1, if_pos hA2]
          exact ⟨ht, le_rfl, le_rfl⟩
        · simp only [if_neg h1, if_neg h2, if_pos hz, if_pos hA1, if_neg hA2]
          have : PIT_EXEMPT_THRESHOLD < A2 := lt_of_not_le hA2
          exact ⟨ht, le_rfl, by (try dsimp only); linarith⟩
      · have hA2 : ¬ A2 ≤ PIT_EXEMPT_THRESHOLD := by
          have := lt_of_not_le hA1
          intro h
          linarith
        simp only [if_neg h1, if_neg h2, if_pos hz, if_neg hA1, if_neg hA2]
        have := lt_of_not_le hA1
        refine ⟨ht, ?_, ?_⟩ <;> (try dsimp only) <;> linarith
    · cases hm : b.max with
      | some m =>
        have hc : 0 ≤ m - b.min + 1 := hcap m hm
        simp only [if_neg h1, if_neg h2, if_neg hz, hm]
        have hminmono : min st1.remaining (m - b.min + 1) ≤ min st2.remaining (m - b.min + 1) :=
          min_le_min hr le_rfl
        refine ⟨?_, ?_, ?_⟩ <;> (try dsimp only)
        · nlinarith
        · have := min_le_left st1.remaining (m - b.min + 1)
          linarith
        · exact sub_min_mono st1.remaining st2.remaining (m - b.min + 1) hr
      | none =>
        simp only [if_neg h1, if_neg h2, if_neg hz, hm]
        refine ⟨?_, ?_, ?_⟩ <;> (try dsimp only)
        · nlinarith
        · linarith
        · linarith

/-- The monotonicity invariant of `progStep_mono`, folded over a whole
bracket list. -/
lemma foldl_progStep_mono (A1 A2 : ℚ) (hA : A1 ≤ A2) :
    ∀ (bs : List TaxBracket), (∀ b ∈ bs, ValidBracket b) →
      ∀ st1 st2 : ProgState, st1.totalTax ≤ st2.totalTax → 0 ≤ st1.remaining →
        st1.remaining ≤ st2.remaining →
        (bs.foldl (progStep A1) st1).totalTax ≤ (bs.foldl (progStep A2) st2).totalTax ∧
          0 ≤ (bs.foldl (progStep A1) st1).remaining ∧
          (bs.foldl (progStep A1) st1).remaining ≤ (bs.foldl (progStep A2) st2).remaining
  | [], _, _, _, ht, h0, hr => ⟨ht, h0, hr⟩
  | b :: bs, hbs, st1, st2, ht, h0, hr => by
    simp only [List.foldl_cons]
    obtain ⟨ht', h0', hr'⟩ :=
      progStep_mono A1 A2 hA b (hbs b (List.mem_cons_self b bs)) st1 st2 ht h0 hr
    exact foldl_progStep_mono A1 A2 hA bs (fun x hx => hbs x (List.mem_cons_of_mem b hx))
      (progStep A1 st1 b) (progStep A2 st2 b) ht' h0' hr'

/-! ## Claims -/

/-- C2: for every taxable amount A at least 0, the totalTax returned by
calculateProgressiveTax equals the sum of the taxForBracket fields of its
returned breakdown, exactly, over the embedded rational arithmetic. -/
theorem calculateProgressiveTax_totalTax_eq_breakdown_sum (A : ℚ) (hA : 0 ≤ A) :
    (calculateProgressiveTax A).totalTax =
      ((calculateProgressiveTax A).breakdown.map BracketBreakdown.taxForBracket).sum :=
  foldl_progStep_taxSum A PIT_BRACKETS ⟨0, A, []⟩ (by simp)

/-- Witness for C2 at the concrete amount 1,000,000. -/
theorem calculateProgressiveTax_totalTax_eq_breakdown_sum_witness :
    (calculateProgressiveTax 1000000).totalTax =
      ((calculateProgressiveTax 1000000).breakdown.map BracketBreakdown.taxForBracket).sum :=
  calculateProgressiveTax_totalTax_eq_breakdown_sum 1000000 (by norm_num)

/-- C3: calculateProgressiveTax is monotonic in its input: for amounts
A1, A2 with 0 ≤ A1 < A2, the totalTax at A1 is at most the totalTax
at A2. -/
theorem calculateProgressiveTax_monotone (A1 A2 : ℚ) (h0 : 0 ≤ A1) (h12 : A1 < A2) :
    (calculateProgressiveTax A1).totalTax ≤ (calculateProgressiveTax A2).totalTax :=
  (foldl_progStep_mono A1 A2 (le_of_lt h12) PIT_BRACKETS PIT_BRACKETS_valid
    ⟨0, A1, []⟩ ⟨0, A2, []⟩ le_rfl h0 (le_of_lt h12)).1

/-- Witness for C3 at the concrete pair 500,000 < 1,000,000. -/
theorem calculateProgressiveTax_monotone_witness :
    (calculateProgressiveTax 500000).totalTax ≤ (calculateProgressiveTax 1000000).totalTax :=
  calculateProgressiveTax_monotone 500000 1000000 (by norm_num) (by norm_num)

/-- Dispatch of `calculateCGT` to the individual path. -/
lemma calculateCGT_individual (input : CGTInput) (h : input.taxpayerType = .individual) :
    calculateCGT input = calculateIndividualCGT input := by
  simp [calculateCGT, h]

/-- Dispatch of `calculateCGT` to the company path. -/
lemma calculateCGT_company (input : CGTInput) (h : input.taxpayerType = .company) :
    calculateCGT input = calculateCompanyCGT input := by
  simp [calculateCGT, h]

/-- Both company branches compute effectiveRate from saleProceeds. -/
lemma calculateCompanyCGT_effectiveRate (input : CGTInput) :
    (calculateCompanyCGT input).effectiveRate =
      if input.saleProceeds > 0 then
        (calculateCompanyCGT input).cgtAmount / input.saleProceeds * 100
      else 0 := by
  unfold calculateCompanyCGT
  cases hct : input.companyTurnover with
  | none =>
    simp only [hct]
    split_ifs <;> simp_all
  | some t =>
    simp only [hct, decide_eq_true_eq]
    split_ifs <;> simp_all

/-- The individual exempt branch also matches the saleProceeds formula
because its cgtAmount is 0. -/
lemma calculateIndividualCGT_exempt_effectiveRate (input : CGTInput)
    (h : (calculateIndividualCGT input).isExempt = true) :
    (calculateIndividualCGT input).effectiveRate =
      if input.saleProceeds > 0 then
        (calculateIndividualCGT input).cgtAmount / input.saleProceeds * 100
      else 0 := by
  simp only [calculateIndividualCGT] at h ⊢
  by_cases hex : max 0 (input.saleProceeds - calculateTotalCosts input) ≤ (800000 : ℚ)
  · rw [if_pos hex]
    simp
  · rw [if_neg hex] at h
    exact absurd h (by simp)

/-- The individual taxed branch computes effectiveRate from the capital
gain, not from saleProceeds. -/
lemma calculateIndividualCGT_taxed_effectiveRate (input : CGTInput)
    (h : (calculateIndividualCGT input).isExempt = false) :
    (calculateIndividualCGT input).effectiveRate =
      if (calculateIndividualCGT input).capitalGain > 0 then
        (calculateIndividualCGT input).cgtAmount /
          (calculateIndividualCGT input).capitalGain * 100
      else 0 := by
  simp only [calculateIndividualCGT] at h ⊢
  by_cases hex : max 0 (input.saleProceeds - calculateTotalCosts input) ≤ (800000 : ℚ)
  · rw [if_pos hex] at h
    exact absurd h (by simp)
  · rw [if_neg hex]

/-- Concrete individual CGT input (saleProceeds 2,000,000, acquisition
cost 500,000) on which the original C1 claim fails. -/
def cgtIndividualSample : CGTInput :=
  { taxpayerType := .individual, saleProceeds := 2000000, acquisitionCost := 500000 }

/-- C1 counterexample: on the individual taxed path the code divides by
capitalGain, not by saleProceeds. At saleProceeds 2,000,000 and capital
gain 1,500,000 the returned effectiveRate is 7, while the claimed formula
cgtAmount / saleProceeds x 100 gives 5.25. -/
theorem calculateCGT_effectiveRate_counterexample :
    ¬ ((calculateCGT cgtIndividualSample).effectiveRate =
        (if cgtIndividualSample.saleProceeds > 0 then
          (calculateCGT cgtIndividualSample).cgtAmount / cgtIndividualSample.saleProceeds * 100
        else 0)) := by
  rw [show calculateCGT cgtIndividualSample = calculateIndividualCGT cgtIndividualSample from rfl]
  norm_num [cgtIndividualSample, calculateIndividualCGT, calculateTotalCosts,
    calculateProgressiveTax, progStep, PIT_BRACKETS, PIT_EXEMPT_THRESHOLD]

/-- C1 (amended): effectiveRate equals cgtAmount / saleProceeds x 100
(0 when saleProceeds is 0) on both company paths and on the
individual-exempt path; on the individual taxed path it instead equals
cgtAmount / capitalGain x 100 (0 when capitalGain is 0). -/
theorem calculateCGT_effectiveRate (input : CGTInput) :
    ((input.taxpayerType = .company ∨ (calculateCGT input).isExempt = true) →
      (calculateCGT input).effectiveRate =
        (if input.saleProceeds > 0 then
          (calculateCGT input).cgtAmount / input.saleProceeds * 100 else 0)) ∧
    ((input.taxpayerType = .individual ∧ (calculateCGT input).isExempt = false) →
      (calculateCGT input).effectiveRate =
        (if (calculateCGT input).capitalGain > 0 then
          (calculateCGT input).cgtAmount / (calculateCGT input).capitalGain * 100 else 0)) := by
  constructor
  · intro hcase
    cases h : input.taxpayerType with
    | company =>
      rw [calculateCGT_company input h]
      exact calculateCompanyCGT_effectiveRate input
    | individual =>
      rcases hcase with hc | he
      · rw [h] at hc
        exact absurd hc (by simp)
      · rw [calculateCGT_individual input h] at he ⊢
        exact calculateIndividualCGT_exempt_effectiveRate input he
  · rintro ⟨hi, he⟩
    rw [calculateCGT_individual input hi] at he ⊢
    exact calculateIndividualCGT_taxed_effectiveRate input he

/-- Concrete company CGT input used as the C1 witness. -/
def cgtCompanySample : CGTInput :=
  { taxpayerType := .company, saleProceeds := 1000000, acquisitionCost := 400000 }

/-- Witness for the amended C1 on a concrete company input. -/
theorem calculateCGT_effectiveRate_witness :
    (calculateCGT cgtCompanySample).effectiveRate =
      (if cgtCompanySample.saleProceeds > 0 then
        (calculateCGT cgtCompanySample).cgtAmount / cgtCompanySample.saleProceeds * 100
      else 0) :=
  (calculateCGT_effectiveRate cgtCompanySample).1 (Or.inl rfl)

/-- The taxableIncome field of a PIT result is the clamped difference of
gross income and total deductions, on both branches. -/
lemma calculatePIT_taxableIncome (incomes : List IncomeSource) (deds : List Deduction)
    (isResident : Bool) :
    (calculatePIT incomes deds isResident).taxableIncome =
      max 0 (calculateGrossIncome incomes -
        (calculateDeductions deds (calculateGrossIncome incomes)).1) := by
  simp only [calculatePIT]
  split_ifs <;> rfl

/-- The capitalGain field of an individual CGT result is the clamped
difference of sale proceeds and total costs, on both branches. -/
lemma calculateIndividualCGT_capitalGain (input : CGTInput) :
    (calculateIndividualCGT input).capitalGain =
      max 0 (input.saleProceeds - calculateTotalCosts input) := by
  simp only [calculateIndividualCGT]
  split_ifs <;> rfl

/-- C4: whenever the derived taxable amount is at most the 800,000 exempt
threshold - taxableIncome for calculatePIT, capitalGain for the
individual path of calculateCGT - the result has zero total tax and
isExempt = true. -/
theorem pit_and_individualCGT_exempt_below_threshold
    (incomes : List IncomeSource) (deds : List Deduction) (isResident : Bool)
    (input : CGTInput)
    (hPIT : (calculatePIT incomes deds isResident).taxableIncome ≤ 800000)
    (hInd : input.taxpayerType = .individual)
    (hGain : (calculateCGT input).capitalGain ≤ 800000) :
    (calculatePIT incomes deds isResident).totalTax = 0 ∧
      (calculatePIT incomes deds isResident).isExempt = true ∧
      (calculateCGT input).cgtAmount = 0 ∧
      (calculateCGT input).isExempt = true := by
  rw [calculateCGT_individual input hInd] at hGain ⊢
  rw [calculatePIT_taxableIncome incomes deds isResident] at hPIT
  rw [calculateIndividualCGT_capitalGain input] at hGain
  have hPIT' : (calculatePIT incomes deds isResident).totalTax = 0 ∧
      (calculatePIT incomes deds isResident).isExempt = true := by
    simp only [calculatePIT]
    rw [if_pos (by simpa [PIT_EXEMPT_THRESHOLD] using hPIT)]
    exact ⟨rfl, rfl⟩
  have hCGT' : (calculateIndividualCGT input).cgtAmount = 0 ∧
      (calculateIndividualCGT input).isExempt = true := by
    simp only [calculateIndividualCGT]
    rw [if_pos hGain]
    exact ⟨rfl, rfl⟩
  exact ⟨hPIT'.1, hPIT'.2, hCGT'.1, hCGT'.2⟩

/-- Concrete PIT income list for the C4 witness. -/
def pitIncomesSample : List IncomeSource := [{ type := "salary", amount := 500000 }]

/-- Concrete individual CGT input with a gain of 500,000 for the C4
witness. -/
def cgtSmallGainSample : CGTInput :=
  { taxpayerType := .individual, saleProceeds := 900000, acquisitionCost := 400000 }

/-- Witness for C4 at a 500,000 income and a 500,000 capital gain. -/
theorem pit_and_individualCGT_exempt_below_threshold_witness :
    (calculatePIT pitIncomesSample [] true).totalTax = 0 ∧
      (calculatePIT pitIncomesSample [] true).isExempt = true ∧
      (calculateCGT cgtSmallGainSample).cgtAmount = 0 ∧
      (calculateCGT cgtSmallGainSample).isExempt = true :=
  pit_and_individualCGT_exempt_below_threshold pitIncomesSample [] true cgtSmallGainSample
    (by norm_num [calculatePIT_taxableIncome, pitIncomesSample, calculateGrossIncome,
      calculateDeductions])
    rfl
    (by rw [calculateCGT_individual cgtSmallGainSample rfl,
          calculateIndividualCGT_capitalGain]
        norm_num [cgtSmallGainSample, calculateTotalCosts])

/-- Total amount counted for one deduction category in the applied list
returned by `calculateDeductions`. -/
def categoryTotal (deductions : List Deduction) (grossIncome : ℚ) (category : String) : ℚ :=
  (((calculateDeductions deductions grossIncome).2.filter
      (fun a => a.type == category)).map AppliedDeduction.amount).sum

/-- Concrete deduction list with two pension entries on which the
original C5 claim fails. -/
def pensionTwiceSample : List Deduction :=
  [{ type := "pension", amount := 100 }, { type := "pension", amount := 100 }]

/-- C5 counterexample: caps are applied per deduction entry, not per
category. With gross income 1,000 and two pension deductions of 100
each, every entry is capped at 80 (8% of gross income) but the pension
category total is 160, which exceeds 80. -/
theorem calculateDeductions_pensionCategoryCap_counterexample :
    ¬ (categoryTotal pensionTwiceSample 1000 "pension" ≤ 1000 * 0.08) := by
  norm_num [categoryTotal, pensionTwiceSample, calculateDeductions, applyDeductionLimits,
    RENT_RELIEF_MAX, JOB_LOSS_COMPENSATION_EXEMPT_LIMIT]

/-- C5 (amended): deductions are capped per entry, not per category: in
the applied list every pension entry is at most 8% of grossIncome, every
rent-relief entry is at most RENT_RELIEF_MAX, every job-loss entry is at
most JOB_LOSS_COMPENSATION_EXEMPT_LIMIT; and the returned totalDeductions
never exceeds grossIncome. -/
theorem calculateDeductions_caps (deds : List Deduction) (g : ℚ) (hg : 0 ≤ g) :
    (∀ a ∈ (calculateDeductions deds g).2, a.type = "pension" → a.amount ≤ g * 0.08) ∧
      (∀ a ∈ (calculateDeductions deds g).2, a.type = "rent_relief" →
        a.amount ≤ RENT_RELIEF_MAX) ∧
      (∀ a ∈ (calculateDeductions deds g).2, a.type = "job_loss" →
        a.amount ≤ JOB_LOSS_COMPENSATION_EXEMPT_LIMIT) ∧
      (calculateDeductions deds g).1 ≤ g := by
  have happlied : ∀ a ∈ (calculateDeductions deds g).2,
      ∃ d ∈ deds, a = applyDeductionLimits g d := by
    intro a ha
    simp only [calculateDeductions, List.mem_map] at ha
    obtain ⟨d, hd, he⟩ := ha
    exact ⟨d, hd, he.symm⟩
  refine ⟨?_, ?_, ?_, ?_⟩
  · intro a ha hta
    obtain ⟨d, _, rfl⟩ := happlied a ha
    simp only [applyDeductionLimits] at hta ⊢
    split_ifs at hta ⊢ with h1 h2 h3 <;> simp_all <;> linarith
  · intro a ha hta
    obtain ⟨d, _, rfl⟩ := happlied a ha
    simp only [applyDeductionLimits] at hta ⊢
    split_ifs at hta ⊢ with h1 h2 h3 <;> simp_all <;> linarith
  · intro a ha hta
    obtain ⟨d, _, rfl⟩ := happlied a ha
    simp only [applyDeductionLimits] at hta ⊢
    split_ifs at hta ⊢ with h1 h2 h3 <;> simp_all <;> linarith
  · simp only [calculateDeductions]
    split_ifs with h
    · exact le_rfl
    · exact le_of_not_lt h

/-- Witness for the amended C5 on a concrete deduction list. -/
theorem calculateDeductions_caps_witness :
    (∀ a ∈ (calculateDeductions pensionTwiceSample 1000).2,
      a.type = "pension" → a.amount ≤ 1000 * 0.08) ∧
      (∀ a ∈ (calculateDeductions pensionTwiceSample 1000).2, a.type = "rent_relief" →
        a.amount ≤ RENT_RELIEF_MAX) ∧
      (∀ a ∈ (calculateDeductions pensionTwiceSample 1000).2, a.type = "job_loss" →
        a.amount ≤ JOB_LOSS_COMPENSATION_EXEMPT_LIMIT) ∧
      (calculateDeductions pensionTwiceSample 1000).1 ≤ 1000 :=
  calculateDeductions_caps pensionTwiceSample 1000 (by norm_num)

/-- Dispatch of `calculateCIT` for small turnover. -/
lemma calculateCIT_small (input : CITInput) (h : input.turnover ≤ SMALL_COMPANY_TURNOVER_LIMIT) :
    calculateCIT input = calculateSmallCompanyCIT input := by
  unfold calculateCIT determineCompanySize
  rw [if_pos h]

/-- Dispatch of `calculateCIT` for turnover above the small-company
limit. -/
lemma calculateCIT_other (input : CITInput)
    (h : ¬ input.turnover ≤ SMALL_COMPANY_TURNOVER_LIMIT) :
    calculateCIT input = calculateOtherCompanyCIT input := by
  unfold calculateCIT determineCompanySize
  rw [if_neg h]

/-- C6: turnover at most 100,000,000 makes every CIT component zero
regardless of profits, and a company CGT input with a defined turnover at
most 100,000,000 pays zero CGT regardless of the gain. -/
theorem smallCompany_zero_tax (cit : CITInput) (cg : CGTInput) (t : ℚ)
    (hcit : cit.turnover ≤ 100000000)
    (hcg : cg.taxpayerType = TaxpayerType.company)
    (hct : cg.companyTurnover = some t) (ht : t ≤ 100000000) :
    (calculateCIT cit).citAmount = 0 ∧ (calculateCIT cit).developmentLevy = 0 ∧
      (calculateCIT cit).minimumTaxTopUp = 0 ∧ (calculateCIT cit).cfcTax = 0 ∧
      (calculateCIT cit).totalTaxPayable = 0 ∧ (calculateCGT cg).cgtAmount = 0 := by
  rw [calculateCIT_small cit (by simpa [SMALL_COMPANY_TURNOVER_LIMIT] using hcit)]
  rw [calculateCGT_company cg hcg]
  refine ⟨rfl, rfl, rfl, rfl, rfl, ?_⟩
  unfold calculateCompanyCGT
  have hdec : decide (t ≤ SMALL_COMPANY_TURNOVER_LIMIT) = true :=
    decide_eq_true (by simpa [SMALL_COMPANY_TURNOVER_LIMIT] using ht)
  simp only [hct, hdec, if_true]

/-- Concrete small-company CIT input for the C6 witness. -/
def citSmallSample : CITInput :=
  { turnover := 50000000, assessableProfits := 20000000,
    companyType := .domestic, isMultinationalSubject := true }

/-- Concrete small-company CGT input for the C6 witness. -/
def cgtSmallCompanySample : CGTInput :=
  { taxpayerType := .company, saleProceeds := 5000000, acquisitionCost := 1000000,
    companyTurnover := some 80000000 }

/-- Witness for C6 at concrete small-company inputs. -/
theorem smallCompany_zero_tax_witness :
    (calculateCIT citSmallSample).citAmount = 0 ∧
      (calculateCIT citSmallSample).developmentLevy = 0 ∧
      (calculateCIT citSmallSample).minimumTaxTopUp = 0 ∧
      (calculateCIT citSmallSample).cfcTax = 0 ∧
      (calculateCIT citSmallSample).totalTaxPayable = 0 ∧
      (calculateCGT cgtSmallCompanySample).cgtAmount = 0 :=
  smallCompany_zero_tax citSmallSample cgtSmallCompanySample 80000000
    (by norm_num [citSmallSample]) rfl rfl (by norm_num)

/-- C7: every CIT result satisfies totalTaxPayable = citAmount +
developmentLevy + minimumTaxTopUp + cfcTax, and a small-company result
has all four components zero. -/
theorem calculateCIT_total_eq_components (input : CITInput) :
    ((calculateCIT input).totalTaxPayable =
      (calculateCIT input).citAmount + (calculateCIT input).developmentLevy +
        (calculateCIT input).minimumTaxTopUp + (calculateCIT input).cfcTax) ∧
      ((calculateCIT input).companySize = .small →
        (calculateCIT input).citAmount = 0 ∧ (calculateCIT input).developmentLevy = 0 ∧
          (calculateCIT input).minimumTaxTopUp = 0 ∧ (calculateCIT input).cfcTax = 0) := by
  by_cases h : input.turnover ≤ SMALL_COMPANY_TURNOVER_LIMIT
  · rw [calculateCIT_small input h]
    exact ⟨by norm_num [calculateSmallCompanyCIT], fun _ => ⟨rfl, rfl, rfl, rfl⟩⟩
  · rw [calculateCIT_other input h]
    constructor
    · simp only [calculateOtherCompanyCIT]
    · intro hs
      exact absurd hs (by simp [calculateOtherCompanyCIT])

/-- Witness for C7: the small-company implication at a concrete input. -/
theorem calculateCIT_total_eq_components_witness :
    (calculateCIT citSmallSample).citAmount = 0 ∧
      (calculateCIT citSmallSample).developmentLevy = 0 ∧
      (calculateCIT citSmallSample).minimumTaxTopUp = 0 ∧
      (calculateCIT citSmallSample).cfcTax = 0 :=
  (calculateCIT_total_eq_components citSmallSample).2
    (by rw [calculateCIT_small citSmallSample (by norm_num [citSmallSample,
        SMALL_COMPANY_TURNOVER_LIMIT])]
        rfl)

/-- C8: VAT round-trip: applying calculateVAT in exclusive mode to an
amount N at least 0 and then in inclusive mode to the resulting
grossAmount recovers netAmount = N exactly in rational arithmetic (hence
within 1e-6). -/
theorem calculateVAT_roundtrip (N : ℚ) (hN : 0 ≤ N) :
    (calculateVAT ⟨(calculateVAT ⟨N, .exclusive⟩).grossAmount, .inclusive⟩).netAmount
      = N := by
  simp only [calculateVAT, VAT_RATE]
  norm_num [show ¬(VATCalculationType.inclusive = VATCalculationType.exclusive) from by simp]
  field_simp
  ring

/-- Witness for C8 at the concrete amount 100,000. -/
theorem calculateVAT_roundtrip_witness :
    (calculateVAT ⟨(calculateVAT ⟨100000, .exclusive⟩).grossAmount, .inclusive⟩).netAmount
      = 100000 :=
  calculateVAT_roundtrip 100000 (by norm_num)

/-- C9: the isResident flag does not interfere with the PIT computation:
for every income and deduction list the full result records at
isResident = true and isResident = false are identical. -/
theorem calculatePIT_isResident_noninterference (incomes : List IncomeSource)
    (deds : List Deduction) :
    calculatePIT incomes deds true = calculatePIT incomes deds false := by
  unfold calculatePIT
  split_ifs <;> rfl

/-- C10: for turnover above the small-company limit and nonnegative
assessable profits, the minimum-tax top-up is always zero: the pre-top-up
effective rate is CIT_RATE + DEVELOPMENT_LEVY_RATE = 34, which is at
least the 15 minimum. -/
theorem calculateCIT_no_minimumTaxTopUp (input : CITInput)
    (ht : 100000000 < input.turnover) (hp : 0 ≤ input.assessableProfits) :
    (calculateCIT input).minimumTaxTopUp = 0 := by
  rw [calculateCIT_other input (by simp [SMALL_COMPANY_TURNOVER_LIMIT]; linarith)]
  simp only [calculateOtherCompanyCIT, calculateMinimumTaxTopUp]
  split_ifs with h1 h2
  · rfl
  · rfl
  · exfalso
    apply h2
    push_neg at h1
    have hp' : 0 < input.assessableProfits := h1.2
    have hne : input.assessableProfits ≠ 0 := ne_of_gt hp'
    have key : (input.assessableProfits * CIT_RATE / 100 +
        input.assessableProfits * DEVELOPMENT_LEVY_RATE / 100) /
          input.assessableProfits * 100 = 34 := by
      rw [CIT_RATE, DEVELOPMENT_LEVY_RATE]
      field_simp
      ring
    rw [ge_iff_le, key, MINIMUM_EFFECTIVE_TAX_RATE]
    norm_num

/-- Concrete large-multinational CIT input for the C10 witness. -/
def citLargeSample : CITInput :=
  { turnover := 200000000, assessableProfits := 10000000,
    companyType := .multinational, isMultinationalSubject := true }

/-- Witness for C10 at a concrete multinational input. -/
theorem calculateCIT_no_minimumTaxTopUp_witness :
    (calculateCIT citLargeSample).minimumTaxTopUp = 0 :=
  calculateCIT_no_minimumTaxTopUp citLargeSample
    (by norm_num [citLargeSample]) (by norm_num [citLargeSample])
